import Mathlib

/-!
Shallow embedding of the Financial-Insights aggregation pipeline.

Python dictionaries are modelled as association lists over `String`
keys (`lookupA` / `insertA`), floating-point prices and rates as `ℚ`,
HTTP traffic and the market-data provider as explicit oracle
functions, and `try/except` around a tool call as an `Except`-valued
oracle.  Each embedded definition mirrors one function of the source
tree (`src/mcp/currency_tools.py`, `src/mcp/stock_tools.py`,
`src/mcp/maps_tools.py`, `src/mcp/server.py`, `src/agent/agent.py`).
-/

/-! ## String helpers mirroring the Python `str` methods used -/

/-- ASCII lower-casing of one character, as `str.lower` does on the
ASCII inputs this program handles. -/
def lowerChar (c : Char) : Char :=
  if 'A' ≤ c ∧ c ≤ 'Z' then Char.ofNat (c.toNat + 32) else c

/-- Python `str.lower()` on ASCII text. -/
def pyLower (s : String) : String :=
  String.mk (s.data.map lowerChar)

/-- The characters `str.strip()` removes (ASCII whitespace). -/
def isPySpace (c : Char) : Bool :=
  c.toNat = 32 ∨ c.toNat = 9 ∨ c.toNat = 10 ∨ c.toNat = 11 ∨
    c.toNat = 12 ∨ c.toNat = 13

/-- Python `str.strip()`: drop leading and trailing whitespace. -/
def pyStrip (s : String) : String :=
  String.mk (((s.data.dropWhile isPySpace).reverse.dropWhile isPySpace).reverse)

/-- Helper for `pyTitle`: the Boolean records whether the previous
character was a cased (alphabetic) one. -/
def pyTitleAux : Bool → List Char → List Char
  | _, [] => []
  | prevCased, c :: rest =>
    if c.isAlpha then
      (if prevCased then c.toLower else c.toUpper) :: pyTitleAux true rest
    else
      c :: pyTitleAux false rest

/-- Python `str.title()`: upper-case the first letter of every alphabetic run,
lower-case the rest. -/
def pyTitle (s : String) : String :=
  String.mk (pyTitleAux false s.data)

/-- Whether the first list is an initial segment of the second. -/
def leadsWith : List Char → List Char → Bool
  | [], _ => true
  | _ :: _, [] => false
  | p :: ps, c :: cs => p = c && leadsWith ps cs

/-- Haystack-then-needle form of Python's `sub in s` on character
lists. -/
def containsL (sub : List Char) : List Char → Bool
  | [] => leadsWith sub []
  | c :: cs => leadsWith sub (c :: cs) || containsL sub cs

/-- Python `str.replace(pat, rep)` (all occurrences) on character
lists, fuelled by the input length; the sources never call it with an
empty pattern, on which this model is the identity. -/
def pyReplaceGo (pat rep : List Char) : Nat → List Char → List Char
  | _, [] => []
  | 0, rest => rest
  | fuel + 1, c :: cs =>
    if !pat.isEmpty && leadsWith pat (c :: cs) then
      rep ++ pyReplaceGo pat rep fuel (List.drop pat.length (c :: cs))
    else
      c :: pyReplaceGo pat rep fuel cs

/-- Python `s.replace(pat, rep)`. -/
def pyReplace (s pat rep : String) : String :=
  String.mk (pyReplaceGo pat.data rep.data s.data.length s.data)

/-- Python `s.split(sep)` (non-empty separator) on character lists,
fuelled by the input length. -/
def pySplitGo (sep : List Char) : Nat → List Char → List Char → List (List Char)
  | _, [], acc => [acc.reverse]
  | 0, rest, acc => [acc.reverse ++ rest]
  | fuel + 1, c :: cs, acc =>
    if !sep.isEmpty && leadsWith sep (c :: cs) then
      acc.reverse :: pySplitGo sep fuel (List.drop sep.length (c :: cs)) []
    else
      pySplitGo sep fuel cs (c :: acc)

/-- Python `s.split(sep)`. -/
def pySplit (s sep : String) : List String :=
  (pySplitGo sep.data s.data.length s.data []).map String.mk

/-- Python `s[:200] + "..." if len(s) > 200 else s`, used by the agent's
intermediate-step trace. -/
def truncate200 (s : String) : String :=
  if s.data.length > 200 then String.mk (s.data.take 200) ++ "..." else s

/-- Python's `sub in s` substring test. -/
def containsSub (s sub : String) : Bool :=
  containsL sub.data s.data

/-- Truthiness of an `os.getenv` result: `None` and the empty string are
falsy. -/
def optTruthy : Option String → Bool
  | none => false
  | some s => s ≠ ""

/-! ## Association lists standing in for Python dictionaries -/

/-- Dictionary lookup (`d.get(k)` / `k in d`): first matching key. -/
def lookupA (k : String) : List (String × α) → Option α
  | [] => none
  | (k', v) :: t => if k' = k then some v else lookupA k t

/-- Dictionary assignment `d[k] = v`: update in place if the key exists
(keeping its position, as CPython dicts do), else append. -/
def insertA (l : List (String × α)) (k : String) (v : α) : List (String × α) :=
  match l with
  | [] => [(k, v)]
  | (k', v') :: t => if k' = k then (k, v) :: t else (k', v') :: insertA t k v

/-- A Python `for b in items: d[key b] = val b` loop building a dict. -/
def buildA (key : β → String) (val : β → α) (acc : List (String × α)) :
    List β → List (String × α)
  | [] => acc
  | b :: t => buildA key val (insertA acc (key b) (val b)) t

theorem lookupA_insertA_self (l : List (String × α)) (k : String) (v : α) :
    lookupA k (insertA l k v) = some v := by
  induction l with
  | nil => simp [insertA, lookupA]
  | cons p t ih =>
    obtain ⟨k', v'⟩ := p
    by_cases h : k' = k
    · simp [insertA, h, lookupA]
    · simp [insertA, h, lookupA, ih]

theorem lookupA_insertA_ne (l : List (String × α)) {k k' : String} (v : α)
    (h : k' ≠ k) : lookupA k (insertA l k' v) = lookupA k l := by
  induction l with
  | nil => simp [insertA, lookupA, h]
  | cons p t ih =>
    obtain ⟨k₀, v₀⟩ := p
    by_cases h0 : k₀ = k'
    · subst h0
      simp [insertA, lookupA, h]
    · by_cases h1 : k₀ = k
      · simp [insertA, h0, lookupA, h1, Ne.symm h]
      · simp [insertA, h0, lookupA, h1, ih]

theorem lookupA_buildA_notmem (key : β → String) (val : β → α)
    (items : List β) (k : String) (h : ∀ b ∈ items, key b ≠ k) :
    ∀ acc, lookupA k (buildA key val acc items) = lookupA k acc := by
  induction items with
  | nil => intro acc; rfl
  | cons b t ih =>
    intro acc
    have hb : key b ≠ k := h b (List.mem_cons_self b t)
    have ht : ∀ b' ∈ t, key b' ≠ k := fun b' hb' => h b' (List.mem_cons_of_mem b hb')
    rw [buildA, ih ht, lookupA_insertA_ne _ _ hb]

theorem lookupA_buildA_mem (key : β → String) (val : β → α)
    (items : List β) (k : String) (v : α)
    (h1 : ∃ b ∈ items, key b = k)
    (h2 : ∀ b ∈ items, key b = k → val b = v) :
    ∀ acc, lookupA k (buildA key val acc items) = some v := by
  induction items with
  | nil =>
    obtain ⟨b, hb, _⟩ := h1
    exact absurd hb (List.not_mem_nil b)
  | cons b t ih =>
    intro acc
    by_cases hmem : ∃ b' ∈ t, key b' = k
    · exact ih hmem (fun b' hb' hk => h2 b' (List.mem_cons_of_mem b hb') hk) _
    · have hbk : key b = k := by
        obtain ⟨b', hb', hk'⟩ := h1
        rcases List.mem_cons.mp hb' with h | h
        · subst h; exact hk'
        · exact absurd ⟨b', h, hk'⟩ hmem
      have hnot : ∀ b' ∈ t, key b' ≠ k := by
        intro b' hb' hk'
        exact hmem ⟨b', hb', hk'⟩
      rw [buildA, lookupA_buildA_notmem key val t k hnot, hbk,
        lookupA_insertA_self]
      exact congrArg some (h2 b (List.mem_cons_self b t) hbk)

theorem lookupA_buildA_none (key : β → String) (val : β → α)
    (items : List β) (k : String) (h : ∀ b ∈ items, key b ≠ k) :
    lookupA k (buildA key val [] items) = none :=
  lookupA_buildA_notmem key val items k h []

theorem lookupA_mem {l : List (String × α)} {k : String} {v : α}
    (h : lookupA k l = some v) : (k, v) ∈ l := by
  induction l with
  | nil => simp [lookupA] at h
  | cons p t ih =>
    obtain ⟨k', v'⟩ := p
    by_cases hk : k' = k
    · subst hk
      simp [lookupA] at h
      simp [h]
    · simp [lookupA, hk] at h
      exact List.mem_cons_of_mem _ (ih h)

theorem keysNodup_lookupA {l : List (String × α)} {k : String} {v : α}
    (hnd : (l.map Prod.fst).Nodup) (hmem : (k, v) ∈ l) :
    lookupA k l = some v := by
  induction l with
  | nil => exact absurd hmem (List.not_mem_nil _)
  | cons p t ih =>
    obtain ⟨k', v'⟩ := p
    rw [List.map_cons, List.nodup_cons] at hnd
    rcases List.mem_cons.mp hmem with h | h
    · rw [Prod.mk.injEq] at h
      simp [lookupA, h.1, h.2]
    · have hne : k' ≠ k := by
        intro he
        subst he
        exact hnd.1 (List.mem_map.mpr ⟨(k', v), h, rfl⟩)
      simp [lookupA, hne]
      exact ih hnd.2 h

theorem keysNodup_val_unique {l : List (String × α)} {k : String} {v w : α}
    (hnd : (l.map Prod.fst).Nodup) (hv : (k, v) ∈ l) (hw : (k, w) ∈ l) :
    v = w := by
  have h1 := keysNodup_lookupA hnd hv
  have h2 := keysNodup_lookupA hnd hw
  rw [h1] at h2
  exact (Option.some.injEq _ _ ▸ h2)

/-! ## Currency tools (`src/mcp/currency_tools.py`) -/

/-- Result of `CurrencyMCPTool.get_country_currency`: either the error
dict or the `{country, currency_code, currency_name}` dict. -/
inductive CurrencyLookup
  | err (msg : String)
  | ok (country currency_code currency_name : String)
  deriving DecidableEq

/-- A value stored in the `rates` dict of `get_exchange_rates`: a
numeric rate or the literal string `"Not available"`. -/
inductive RateVal
  | num (q : ℚ)
  | str (s : String)
  deriving DecidableEq

/-- Result of `CurrencyMCPTool.get_exchange_rates`: the error dict or
the `{base_currency, rates, last_updated, next_update}` dict. -/
inductive ExchangeResult
  | err (msg : String)
  | ok (base_currency : String) (rates : List (String × RateVal))
      (last_updated next_update : Option String)
  deriving DecidableEq

/-- Result of `CurrencyMCPTool.get_all_rates_for_country`: the error
dict or the merged `{country, currency_code, currency_name,
exchange_rates}` dict. -/
inductive AllRatesResult
  | err (msg : String)
  | merged (country currency_code currency_name : String)
      (exchange_rates : ExchangeResult)
  deriving DecidableEq

/-- The Python test `"error" in result` on the value returned by
`get_all_rates_for_country`: only the error dict has that key; the
merged dict's keys are country, currency_code, currency_name and
exchange_rates. -/
def AllRatesResult.hasErrorKey : AllRatesResult → Bool
  | .err _ => true
  | .merged _ _ _ _ => false

/-- The body of the HTTP response `requests.get(url)` as the currency
tool consumes it: `result`, optional `error-type`, `conversion_rates`,
and the two timestamp fields, all read with `dict.get`. -/
structure ApiResponse where
  result : String
  errorType : Option String
  conversion_rates : List (String × ℚ)
  time_last_update_utc : Option String
  time_next_update_utc : Option String
  deriving DecidableEq

/-- Outcome of one `requests.get`: a raised `RequestException`
(transport failure or `raise_for_status`) or a JSON body. -/
inductive HttpOutcome
  | failure (msg : String)
  | success (resp : ApiResponse)

/-- Environment of `CurrencyMCPTool`: the `EXCHANGERATE_API_KEY`
value and the network, as a map from URL to response. -/
structure CurrencyEnv where
  api_key : Option String
  http : String → HttpOutcome

/-- The static `country_currency_map` of `get_country_currency`:
lowercase country name ↦ (ISO 4217 code, currency name). -/
def country_currency_map : List (String × String × String) :=
  [("japan", "JPY", "Japanese Yen"),
   ("india", "INR", "Indian Rupee"),
   ("united states", "USD", "US Dollar"),
   ("usa", "USD", "US Dollar"),
   ("united kingdom", "GBP", "British Pound Sterling"),
   ("uk", "GBP", "British Pound Sterling"),
   ("south korea", "KRW", "South Korean Won"),
   ("korea", "KRW", "South Korean Won"),
   ("china", "CNY", "Chinese Yuan"),
   ("germany", "EUR", "Euro"),
   ("france", "EUR", "Euro"),
   ("italy", "EUR", "Euro"),
   ("spain", "EUR", "Euro"),
   ("canada", "CAD", "Canadian Dollar"),
   ("australia", "AUD", "Australian Dollar"),
   ("brazil", "BRL", "Brazilian Real"),
   ("mexico", "MXN", "Mexican Peso"),
   ("switzerland", "CHF", "Swiss Franc"),
   ("singapore", "SGD", "Singapore Dollar"),
   ("hong kong", "HKD", "Hong Kong Dollar"),
   ("russia", "RUB", "Russian Ruble"),
   ("south africa", "ZAR", "South African Rand"),
   ("turkey", "TRY", "Turkish Lira"),
   ("saudi arabia", "SAR", "Saudi Riyal"),
   ("uae", "AED", "UAE Dirham"),
   ("thailand", "THB", "Thai Baht"),
   ("malaysia", "MYR", "Malaysian Ringgit"),
   ("indonesia", "IDR", "Indonesian Rupiah"),
   ("philippines", "PHP", "Philippine Peso"),
   ("vietnam", "VND", "Vietnamese Dong"),
   ("poland", "PLN", "Polish Zloty"),
   ("sweden", "SEK", "Swedish Krona"),
   ("norway", "NOK", "Norwegian Krone"),
   ("denmark", "DKK", "Danish Krone"),
   ("new zealand", "NZD", "New Zealand Dollar"),
   ("argentina", "ARS", "Argentine Peso"),
   ("chile", "CLP", "Chilean Peso"),
   ("colombia", "COP", "Colombian Peso"),
   ("egypt", "EGP", "Egyptian Pound"),
   ("israel", "ILS", "Israeli Shekel"),
   ("pakistan", "PKR", "Pakistani Rupee"),
   ("bangladesh", "BDT", "Bangladeshi Taka"),
   ("nigeria", "NGN", "Nigerian Naira"),
   ("kenya", "KES", "Kenyan Shilling")]

/-- Method `CurrencyMCPTool.get_country_currency`.  The second component of
the pair is the list of HTTP requests the call performs (none: the
function is a static lookup). -/
def get_country_currency (country_name : String) :
    CurrencyLookup × List String :=
  let country_lower := pyStrip (pyLower country_name)
  match lookupA country_lower country_currency_map with
  | none =>
      (.err ("Currency information not found for country: " ++ country_name), [])
  | some (code, cname) =>
      (.ok (pyTitle country_name) code cname, [])

/-- The URL `get_exchange_rates` requests:
`{base_url}/{api_key}/latest/{base_currency}`. -/
def rateUrl (key base_currency : String) : String :=
  "https://v6.exchangerate-api.com/v6/" ++ key ++ "/latest/" ++ base_currency

/-- The `rates` dict built by the loop of `get_exchange_rates`: every
requested target is assigned its conversion rate when present, the
literal `"Not available"` otherwise. -/
def ratesFor (conversion_rates : List (String × ℚ)) (target_currencies : List String) :
    List (String × RateVal) :=
  buildA id
    (fun target =>
      match lookupA target conversion_rates with
      | some r => RateVal.num r
      | none => RateVal.str "Not available")
    [] target_currencies

/-- Method `CurrencyMCPTool.get_exchange_rates`, with the HTTP request log as
second component. -/
def get_exchange_rates (env : CurrencyEnv) (base_currency : String)
    (target_currencies : List String) : ExchangeResult × List String :=
  if !optTruthy env.api_key then
    (.err "EXCHANGERATE_API_KEY not configured", [])
  else
    let url := rateUrl (env.api_key.getD "") base_currency
    match env.http url with
    | .failure e => (.err ("Failed to fetch exchange rates: " ++ e), [url])
    | .success data =>
        if data.result ≠ "success" then
          (.err ("API error: " ++ data.errorType.getD "Unknown error"), [url])
        else
          (.ok base_currency (ratesFor data.conversion_rates target_currencies)
            data.time_last_update_utc data.time_next_update_utc, [url])

/-- Method `CurrencyMCPTool.get_all_rates_for_country`: country lookup, base
currency removed from the fixed target list, then the rate fetch,
merged into one record. -/
def get_all_rates_for_country (env : CurrencyEnv) (country_name : String) :
    AllRatesResult × List String :=
  match get_country_currency country_name with
  | (.err m, log) => (.err m, log)
  | (.ok country code cname, log1) =>
      let target_currencies := ["USD", "EUR", "GBP", "INR"]
      let target_currencies :=
        if code ∈ target_currencies then target_currencies.erase code
        else target_currencies
      let (exchange_data, log2) := get_exchange_rates env code target_currencies
      (.merged country code cname exchange_data, log1 ++ log2)

/-! ## Facts about the static currency table -/

theorem country_currency_map_keys_nodup :
    (country_currency_map.map Prod.fst).Nodup := by decide

theorem country_currency_map_keys_canonical :
    ∀ p ∈ country_currency_map, pyStrip (pyLower p.1) = p.1 := by decide

/-- Inversion for the success branch of `get_exchange_rates`: an
`ok`-shaped result is only produced on the success path, with the
`rates` dict built by `ratesFor` from the requested targets. -/
theorem get_exchange_rates_ok_inv {env : CurrencyEnv}
    {base_currency : String} {target_currencies : List String}
    {b : String} {rates : List (String × RateVal)} {lu nu : Option String}
    (h : (get_exchange_rates env base_currency target_currencies).1 =
      ExchangeResult.ok b rates lu nu) :
    b = base_currency ∧
    ∃ conv, rates = ratesFor conv target_currencies := by
  unfold get_exchange_rates at h
  by_cases hk : optTruthy env.api_key
  · simp only [hk, Bool.not_true, Bool.false_eq_true, if_false] at h
    cases hh : env.http (rateUrl (env.api_key.getD "") base_currency) with
    | failure e => rw [hh] at h; simp at h
    | success data =>
      rw [hh] at h
      by_cases hr : data.result = "success"
      · simp only [hr, ne_eq, not_true_eq_false, if_false, if_neg] at h
        simp at h
        exact ⟨h.1.symm, data.conversion_rates, h.2.1.symm⟩
      · simp [hr] at h
  · simp [hk] at h

/-- C9: `get_country_currency` is a pure static lookup.  It performs no
network request (empty request log); a country whose lowercased,
trimmed name is a key of `country_currency_map` yields that entry's
ISO 4217 code and currency name; any other name yields the error
record. -/
theorem get_country_currency_pure_static_lookup (country_name : String) :
    (get_country_currency country_name).2 = [] ∧
    (∀ code cname,
      (pyStrip (pyLower country_name), code, cname) ∈ country_currency_map →
      (get_country_currency country_name).1 =
        CurrencyLookup.ok (pyTitle country_name) code cname) ∧
    (lookupA (pyStrip (pyLower country_name)) country_currency_map = none →
      (get_country_currency country_name).1 =
        CurrencyLookup.err
          ("Currency information not found for country: " ++ country_name)) := by
  refine ⟨?_, ?_, ?_⟩
  · unfold get_country_currency
    cases h : lookupA (pyStrip (pyLower country_name)) country_currency_map with
    | none => simp [h]
    | some p => obtain ⟨c, n⟩ := p; simp [h]
  · intro code cname hmem
    have hl := keysNodup_lookupA country_currency_map_keys_nodup hmem
    unfold get_country_currency
    simp [hl]
  · intro h
    unfold get_country_currency
    simp [h]

/-- Witness for C9 at the concrete inputs "japan" (present in the
table) and "atlantis" (absent). -/
theorem get_country_currency_pure_static_lookup_witness :
    (get_country_currency "japan").1 =
      CurrencyLookup.ok "Japan" "JPY" "Japanese Yen" ∧
    (get_country_currency "atlantis").1 =
      CurrencyLookup.err
        "Currency information not found for country: atlantis" := by
  constructor
  · have h := (get_country_currency_pure_static_lookup "japan").2.1 "JPY"
      "Japanese Yen" (by decide)
    rw [h]; decide
  · have h := (get_country_currency_pure_static_lookup "atlantis").2.2 (by decide)
    rw [h]; decide

/-- Counterexample to C2 as stated: with no API key configured the
rate fetch fails, yet `get_all_rates_for_country("japan")` returns a
success-shaped merged record (no top-level error key) with the
exchange-rate error embedded under `exchange_rates`, not the error as
the call's result. -/
theorem get_all_rates_for_country_error_embedded_cex :
    (get_all_rates_for_country ⟨none, fun _ => HttpOutcome.failure "down"⟩
        "japan").1 =
      AllRatesResult.merged "Japan" "JPY" "Japanese Yen"
        (ExchangeResult.err "EXCHANGERATE_API_KEY not configured") ∧
    ((get_all_rates_for_country ⟨none, fun _ => HttpOutcome.failure "down"⟩
        "japan").1).hasErrorKey = false := by
  constructor
  · decide
  · decide

/-- C2 (amended): `get_all_rates_for_country` returns a lookup error
from `get_country_currency` directly; when the country lookup
succeeds it always returns the merged record, and an error from
`get_exchange_rates` is embedded in its `exchange_rates` field
rather than being the call's error result. -/
theorem get_all_rates_for_country_composition (env : CurrencyEnv)
    (country_name : String) :
    (∀ m, (get_country_currency country_name).1 = CurrencyLookup.err m →
      (get_all_rates_for_country env country_name).1 = AllRatesResult.err m) ∧
    (∀ country code cname,
      (get_country_currency country_name).1 =
        CurrencyLookup.ok country code cname →
      (get_all_rates_for_country env country_name).1 =
        AllRatesResult.merged country code cname
          (get_exchange_rates env code
            (if code ∈ ["USD", "EUR", "GBP", "INR"]
             then (["USD", "EUR", "GBP", "INR"]).erase code
             else ["USD", "EUR", "GBP", "INR"])).1 ∧
      ((get_all_rates_for_country env country_name).1).hasErrorKey = false) := by
  constructor
  · intro m hm
    cases hp : get_country_currency country_name with
    | mk res log =>
      rw [hp] at hm
      simp only at hm
      subst hm
      simp [get_all_rates_for_country, hp]
  · intro country code cname hm
    cases hp : get_country_currency country_name with
    | mk res log =>
      rw [hp] at hm
      simp only at hm
      subst hm
      cases hq : get_exchange_rates env code
          (if code ∈ ["USD", "EUR", "GBP", "INR"]
           then (["USD", "EUR", "GBP", "INR"]).erase code
           else ["USD", "EUR", "GBP", "INR"]) with
      | mk ex log2 =>
        refine ⟨?_, ?_⟩
        · simp only [get_all_rates_for_country, hp, hq]
        · simp only [get_all_rates_for_country, hp, hq, AllRatesResult.hasErrorKey]

/-- Witness for C2's amended theorem at the concrete country "india"
with no API key configured. -/
theorem get_all_rates_for_country_composition_witness :
    (get_all_rates_for_country ⟨none, fun _ => HttpOutcome.failure "x"⟩
        "india").1 =
      AllRatesResult.merged "India" "INR" "Indian Rupee"
        (ExchangeResult.err "EXCHANGERATE_API_KEY not configured") := by
  have h := (get_all_rates_for_country_composition
      ⟨none, fun _ => HttpOutcome.failure "x"⟩ "india").2
      "India" "INR" "Indian Rupee" (by decide)
  rw [h.1]; decide

/-- C6: when the country is found, `get_all_rates_for_country` calls
`get_exchange_rates` with the fixed target list from which the base
currency has been removed; the base is never a member of that list,
and a successful rate fetch from this path holds no self-rate entry. -/
theorem get_all_rates_for_country_removes_base (env : CurrencyEnv)
    (country_name country code cname : String)
    (h : (get_country_currency country_name).1 =
      CurrencyLookup.ok country code cname) :
    code ∉ (if code ∈ ["USD", "EUR", "GBP", "INR"]
            then (["USD", "EUR", "GBP", "INR"]).erase code
            else ["USD", "EUR", "GBP", "INR"]) ∧
    (get_all_rates_for_country env country_name).1 =
      AllRatesResult.merged country code cname
        (get_exchange_rates env code
          (if code ∈ ["USD", "EUR", "GBP", "INR"]
           then (["USD", "EUR", "GBP", "INR"]).erase code
           else ["USD", "EUR", "GBP", "INR"])).1 ∧
    (∀ b rates lu nu,
      (get_exchange_rates env code
        (if code ∈ ["USD", "EUR", "GBP", "INR"]
         then (["USD", "EUR", "GBP", "INR"]).erase code
         else ["USD", "EUR", "GBP", "INR"])).1 =
        ExchangeResult.ok b rates lu nu →
      lookupA code rates = none) := by
  have hnotmem : code ∉ (if code ∈ ["USD", "EUR", "GBP", "INR"]
      then (["USD", "EUR", "GBP", "INR"]).erase code
      else ["USD", "EUR", "GBP", "INR"]) := by
    by_cases hmem : code ∈ ["USD", "EUR", "GBP", "INR"]
    · rw [if_pos hmem]
      simp only [List.mem_cons, List.not_mem_nil, or_false] at hmem
      rcases hmem with h' | h' | h' | h' <;> subst h' <;> decide
    · rw [if_neg hmem]; exact hmem
  refine ⟨hnotmem, ?_, ?_⟩
  · cases hp : get_country_currency country_name with
    | mk res log =>
      rw [hp] at h
      simp only at h
      subst h
      cases hq : get_exchange_rates env code
          (if code ∈ ["USD", "EUR", "GBP", "INR"]
           then (["USD", "EUR", "GBP", "INR"]).erase code
           else ["USD", "EUR", "GBP", "INR"]) with
      | mk ex log2 => simp only [get_all_rates_for_country, hp, hq]
  · intro b rates lu nu hok
    obtain ⟨_, conv, hr⟩ := get_exchange_rates_ok_inv hok
    subst hr
    apply lookupA_buildA_none
    intro b' hb' he
    exact hnotmem (he ▸ hb')

/-- Witness for C6 at the country "usa" (base USD, which is in the
fixed target list) with a successful rate response. -/
theorem get_all_rates_for_country_removes_base_witness :
    "USD" ∉ (if "USD" ∈ ["USD", "EUR", "GBP", "INR"]
             then (["USD", "EUR", "GBP", "INR"]).erase "USD"
             else ["USD", "EUR", "GBP", "INR"]) ∧
    lookupA "USD"
      (ratesFor [("EUR", (2 : ℚ))]
        (if "USD" ∈ ["USD", "EUR", "GBP", "INR"]
         then (["USD", "EUR", "GBP", "INR"]).erase "USD"
         else ["USD", "EUR", "GBP", "INR"])) = none := by
  have h := get_all_rates_for_country_removes_base
    ⟨some "K", fun _ => HttpOutcome.success
      ⟨"success", none, [("EUR", 2)], none, none⟩⟩
    "usa" "Usa" "USD" "US Dollar" (by decide)
  refine ⟨h.1, h.2.2 "USD" _ none none (by decide)⟩

/-- C7: on a successful call, the `rates` dict of
`get_exchange_rates` contains an entry for every requested target:
the numeric conversion rate when the API response has one, the
literal string "Not available" when the target is missing from
`conversion_rates`. -/
theorem get_exchange_rates_no_target_omitted (env : CurrencyEnv)
    (base_currency : String) (target_currencies : List String)
    (data : ApiResponse) (t : String)
    (hkey : optTruthy env.api_key = true)
    (hresp : env.http (rateUrl (env.api_key.getD "") base_currency) =
      HttpOutcome.success data)
    (hok : data.result = "success")
    (ht : t ∈ target_currencies) :
    (get_exchange_rates env base_currency target_currencies).1 =
      ExchangeResult.ok base_currency
        (ratesFor data.conversion_rates target_currencies)
        data.time_last_update_utc data.time_next_update_utc ∧
    lookupA t (ratesFor data.conversion_rates target_currencies) =
      some (match lookupA t data.conversion_rates with
            | some q => RateVal.num q
            | none => RateVal.str "Not available") := by
  constructor
  · unfold get_exchange_rates
    rw [hkey]
    simp only [Bool.not_true, Bool.false_eq_true, if_false, hresp, hok]
    simp
  · exact lookupA_buildA_mem id _ target_currencies t _ ⟨t, ht, rfl⟩
      (fun b _ hk => by subst hk; rfl) []

/-- Witness for C7: base INR, targets USD and EUR, with EUR missing
from the response's conversion rates. -/
theorem get_exchange_rates_no_target_omitted_witness :
    lookupA "EUR" (ratesFor [("USD", (84 : ℚ))] ["USD", "EUR"]) =
      some (RateVal.str "Not available") := by
  have h := get_exchange_rates_no_target_omitted
    ⟨some "K", fun _ => HttpOutcome.success
      ⟨"success", none, [("USD", 84)], some "LU", none⟩⟩
    "INR" ["USD", "EUR"] ⟨"success", none, [("USD", 84)], some "LU", none⟩
    "EUR" (by decide) rfl rfl (by decide)
  rw [h.2]; decide

/-! ## Stock tools (`src/mcp/stock_tools.py`) -/

/-- Python `round(x, 2)`: round to two decimals, ties to even. -/
def roundHalfEven (x : ℚ) : ℤ :=
  let f := ⌊x⌋
  let r := x - f
  if r < 1 / 2 then f
  else if 1 / 2 < r then f + 1
  else if f % 2 = 0 then f else f + 1

/-- Two-decimal rounding used on every numeric field of an index
entry. -/
def pyRound2 (x : ℚ) : ℚ := (roundHalfEven (x * 100) : ℚ) / 100

/-- Outcome of the per-ticker `yf.Ticker` fetch: either an exception
raised anywhere inside the `try` block, or the `previousClose`
metadata (absent when the key is missing from `ticker.info`), the
historical close-price series in chronological order, and the
formatted timestamp of its last row. -/
inductive FetchOutcome
  | exn (msg : String)
  | ok (info_previousClose : Option ℚ) (closes : List ℚ) (last_updated : String)

/-- One value of the `index_data` dict of `get_index_values`: the
success record or the per-index error record. -/
inductive IndexEntry
  | ok (symbol : String) (current_value previous_close change change_percent : ℚ)
      (last_updated : String)
  | err (symbol : String) (msg : String)
  deriving DecidableEq

/-- The `change_percent` field of a success entry. -/
def IndexEntry.changePercent : IndexEntry → Option ℚ
  | .ok _ _ _ _ cp _ => some cp
  | .err _ _ => none

/-- The `change` field of a success entry. -/
def IndexEntry.changeVal : IndexEntry → Option ℚ
  | .ok _ _ _ c _ _ => some c
  | .err _ _ => none

/-- Result of `StockMCPTool.get_index_values`: the error dict or the
`{country, indices}` dict. -/
inductive StockResult
  | err (msg : String)
  | ok (country : String) (indices : List (String × IndexEntry))
  deriving DecidableEq

/-- The `indices` dict of a `get_index_values` result. -/
def StockResult.indicesOf : StockResult → List (String × IndexEntry)
  | .err _ => []
  | .ok _ inds => inds

/-- Whether a `get_index_values` result is the country-not-found
error. -/
def StockResult.isErr : StockResult → Bool
  | .err _ => true
  | .ok _ _ => false

/-- Python `info.get('previousClose', hist['Close'].iloc[-2] if
len(hist) > 1 else current_price)`: provider metadata when present,
else the second-to-last close, else the sole (latest) close. -/
def previousCloseVal (info_previousClose : Option ℚ) (closes : List ℚ) : ℚ :=
  match info_previousClose with
  | some v => v
  | none =>
      if closes.length > 1 then closes.getD (closes.length - 2) 0
      else closes.getLastD 0

/-- The per-ticker body of the `get_index_values` loop: one `try`
iteration turning a fetch outcome into the entry stored under the
index name. -/
def processTicker (ticker_symbol : String) (o : FetchOutcome) : IndexEntry :=
  match o with
  | .exn e => .err ticker_symbol ("Failed to fetch data: " ++ e)
  | .ok info_previousClose closes last_updated =>
      if closes.isEmpty then .err ticker_symbol "No data available"
      else
        let current_price := closes.getLastD 0
        let previous_close := previousCloseVal info_previousClose closes
        let change := current_price - previous_close
        let change_percent :=
          if previous_close ≠ 0 then change / previous_close * 100 else 0
        .ok ticker_symbol (pyRound2 current_price) (pyRound2 previous_close)
          (pyRound2 change) (pyRound2 change_percent) last_updated

/-- One value of the static `stock_exchanges` table. -/
structure ExchangeEntry where
  exchanges : List String
  indices : List (String × String)
  primary_exchange : String
  hq_location : String
  deriving DecidableEq

/-- The static `stock_exchanges` table of `StockMCPTool`, keyed by
lowercase country name. -/
def stock_exchanges : List (String × ExchangeEntry) :=
  [("japan",
    ⟨["Tokyo Stock Exchange (TSE)", "Osaka Exchange (OSE)"],
     [("Nikkei 225", "^N225"), ("TOPIX", "^TOPX"), ("JPX-Nikkei 400", "^JPN400")],
     "Tokyo Stock Exchange", "Tokyo, Japan"⟩),
   ("india",
    ⟨["National Stock Exchange (NSE)", "Bombay Stock Exchange (BSE)"],
     [("NIFTY 50", "^NSEI"), ("SENSEX", "^BSESN"), ("NIFTY Bank", "^NSEBANK")],
     "National Stock Exchange of India", "Mumbai, Maharashtra, India"⟩),
   ("united states",
    ⟨["New York Stock Exchange (NYSE)", "NASDAQ", "CBOE"],
     [("S&P 500", "^GSPC"), ("Dow Jones", "^DJI"),
      ("NASDAQ Composite", "^IXIC"), ("Russell 2000", "^RUT")],
     "New York Stock Exchange", "New York, NY, USA"⟩),
   ("usa",
    ⟨["New York Stock Exchange (NYSE)", "NASDAQ", "CBOE"],
     [("S&P 500", "^GSPC"), ("Dow Jones", "^DJI"),
      ("NASDAQ Composite", "^IXIC"), ("Russell 2000", "^RUT")],
     "New York Stock Exchange", "New York, NY, USA"⟩),
   ("united kingdom",
    ⟨["London Stock Exchange (LSE)"],
     [("FTSE 100", "^FTSE"), ("FTSE 250", "^FTMC"), ("FTSE All-Share", "^FTAS")],
     "London Stock Exchange", "London, United Kingdom"⟩),
   ("uk",
    ⟨["London Stock Exchange (LSE)"],
     [("FTSE 100", "^FTSE"), ("FTSE 250", "^FTMC")],
     "London Stock Exchange", "London, United Kingdom"⟩),
   ("south korea",
    ⟨["Korea Exchange (KRX)"],
     [("KOSPI", "^KS11"), ("KOSDAQ", "^KQ11")],
     "Korea Exchange", "Seoul, South Korea"⟩),
   ("korea",
    ⟨["Korea Exchange (KRX)"],
     [("KOSPI", "^KS11"), ("KOSDAQ", "^KQ11")],
     "Korea Exchange", "Seoul, South Korea"⟩),
   ("china",
    ⟨["Shanghai Stock Exchange (SSE)", "Shenzhen Stock Exchange (SZSE)",
      "Hong Kong Stock Exchange (HKEX)"],
     [("SSE Composite", "000001.SS"), ("Shenzhen Component", "399001.SZ"),
      ("Hang Seng", "^HSI")],
     "Shanghai Stock Exchange", "Shanghai, China"⟩),
   ("germany",
    ⟨["Frankfurt Stock Exchange (FWB)"],
     [("DAX", "^GDAXI"), ("MDAX", "^MDAXI"), ("TecDAX", "^TECDAX")],
     "Frankfurt Stock Exchange", "Frankfurt, Germany"⟩),
   ("france",
    ⟨["Euronext Paris"],
     [("CAC 40", "^FCHI")],
     "Euronext Paris", "Paris, France"⟩),
   ("canada",
    ⟨["Toronto Stock Exchange (TSX)"],
     [("S&P/TSX Composite", "^GSPTSE"), ("S&P/TSX 60", "^TX60")],
     "Toronto Stock Exchange", "Toronto, Ontario, Canada"⟩),
   ("australia",
    ⟨["Australian Securities Exchange (ASX)"],
     [("ASX 200", "^AXJO"), ("All Ordinaries", "^AORD")],
     "Australian Securities Exchange", "Sydney, NSW, Australia"⟩),
   ("hong kong",
    ⟨["Hong Kong Stock Exchange (HKEX)"],
     [("Hang Seng", "^HSI"), ("Hang Seng Tech", "^HSTECH")],
     "Hong Kong Stock Exchange", "Hong Kong"⟩),
   ("singapore",
    ⟨["Singapore Exchange (SGX)"],
     [("Straits Times Index", "^STI")],
     "Singapore Exchange", "Singapore"⟩),
   ("brazil",
    ⟨["B3 - Brasil Bolsa Balcão"],
     [("Bovespa", "^BVSP")],
     "B3 - Brasil Bolsa Balcão", "São Paulo, Brazil"⟩),
   ("switzerland",
    ⟨["SIX Swiss Exchange"],
     [("SMI", "^SSMI")],
     "SIX Swiss Exchange", "Zurich, Switzerland"⟩),
   ("spain",
    ⟨["Bolsa de Madrid"],
     [("IBEX 35", "^IBEX")],
     "Bolsa de Madrid", "Madrid, Spain"⟩),
   ("italy",
    ⟨["Borsa Italiana"],
     [("FTSE MIB", "FTSEMIB.MI")],
     "Borsa Italiana", "Milan, Italy"⟩),
   ("netherlands",
    ⟨["Euronext Amsterdam"],
     [("AEX", "^AEX")],
     "Euronext Amsterdam", "Amsterdam, Netherlands"⟩),
   ("sweden",
    ⟨["Nasdaq Stockholm"],
     [("OMX Stockholm 30", "^OMX")],
     "Nasdaq Stockholm", "Stockholm, Sweden"⟩),
   ("russia",
    ⟨["Moscow Exchange (MOEX)"],
     [("MOEX Russia Index", "IMOEX.ME")],
     "Moscow Exchange", "Moscow, Russia"⟩),
   ("mexico",
    ⟨["Mexican Stock Exchange (BMV)"],
     [("IPC", "^MXX")],
     "Mexican Stock Exchange", "Mexico City, Mexico"⟩),
   ("thailand",
    ⟨["Stock Exchange of Thailand (SET)"],
     [("SET Index", "^SET.BK")],
     "Stock Exchange of Thailand", "Bangkok, Thailand"⟩),
   ("indonesia",
    ⟨["Indonesia Stock Exchange (IDX)"],
     [("Jakarta Composite", "^JKSE")],
     "Indonesia Stock Exchange", "Jakarta, Indonesia"⟩),
   ("malaysia",
    ⟨["Bursa Malaysia"],
     [("KLCI", "^KLSE")],
     "Bursa Malaysia", "Kuala Lumpur, Malaysia"⟩)]

/-- Method `StockMCPTool.get_index_values`, with the market-data
provider abstracted as a per-ticker fetch oracle. -/
def get_index_values (fetch : String → FetchOutcome) (country_name : String) :
    StockResult :=
  let country_lower := pyStrip (pyLower country_name)
  match lookupA country_lower stock_exchanges with
  | none =>
      .err ("Stock exchange information not found for country: " ++ country_name)
  | some entry =>
      .ok (pyTitle country_name)
        (buildA Prod.fst (fun p => processTicker p.2 (fetch p.2)) [] entry.indices)

theorem stock_exchanges_index_keys_nodup :
    ∀ p ∈ stock_exchanges, ((p.2.indices.map Prod.fst).Nodup) := by decide

theorem pyRound2_zero : pyRound2 0 = 0 := by
  unfold pyRound2 roundHalfEven
  norm_num

theorem pyRound2_intCast (n : ℤ) : pyRound2 ((n : ℚ)) = n := by
  unfold pyRound2 roundHalfEven
  have h1 : ((n : ℚ)) * 100 = ((n * 100 : ℤ) : ℚ) := by push_cast; ring
  simp only [h1, Int.floor_intCast, sub_self]
  norm_num

/-- Evaluation of the per-ticker body on a single-entry history with
no provider metadata. -/
theorem processTicker_single_no_meta (ticker_symbol : String) (x : ℚ)
    (ts : String) :
    processTicker ticker_symbol (FetchOutcome.ok none [x] ts) =
      IndexEntry.ok ticker_symbol (pyRound2 x) (pyRound2 x) 0 0 ts := by
  unfold processTicker previousCloseVal
  simp only [List.isEmpty_cons, Bool.false_eq_true, if_false,
    List.length_singleton, gt_iff_lt, lt_self_iff_false,
    List.getLastD_cons, List.getLastD_nil, sub_self]
  by_cases hx : x = 0
  · simp [hx, pyRound2_zero]
  · simp [hx, pyRound2_zero]

/-- The entry stored under an index name by `get_index_values` is
computed from that single ticker's fetch outcome alone. -/
theorem get_index_values_lookup
    (country_name : String) (entry : ExchangeEntry)
    (fetch : String → FetchOutcome) (index_name ticker_symbol : String)
    (hc : lookupA (pyStrip (pyLower country_name)) stock_exchanges = some entry)
    (hi : (index_name, ticker_symbol) ∈ entry.indices) :
    lookupA index_name (get_index_values fetch country_name).indicesOf =
      some (processTicker ticker_symbol (fetch ticker_symbol)) := by
  have hnd := stock_exchanges_index_keys_nodup _ (lookupA_mem hc)
  simp only [get_index_values, hc, StockResult.indicesOf]
  apply lookupA_buildA_mem Prod.fst _ entry.indices index_name _
    ⟨(index_name, ticker_symbol), hi, rfl⟩ ?_ []
  intro b hb hk
  obtain ⟨n, s⟩ := b
  simp only at hk
  subst hk
  have hs : s = ticker_symbol := keysNodup_val_unique hnd hb hi
  rw [hs]

/-- C4: per-ticker isolation in `get_index_values`.  For a country in
the static table, the entry recorded under each index name is exactly
`processTicker` of that index's own fetch outcome — independent of
every other ticker's outcome — and a failing fetch (exception or
empty history) yields that index's error entry while the whole result
is still the success-shaped country record. -/
theorem get_index_values_per_ticker_isolation
    (country_name : String) (entry : ExchangeEntry)
    (fetch : String → FetchOutcome) (index_name ticker_symbol : String)
    (hc : lookupA (pyStrip (pyLower country_name)) stock_exchanges = some entry)
    (hi : (index_name, ticker_symbol) ∈ entry.indices) :
    (get_index_values fetch country_name).isErr = false ∧
    lookupA index_name (get_index_values fetch country_name).indicesOf =
      some (processTicker ticker_symbol (fetch ticker_symbol)) ∧
    (∀ e, processTicker ticker_symbol (FetchOutcome.exn e) =
      IndexEntry.err ticker_symbol ("Failed to fetch data: " ++ e)) ∧
    (∀ meta ts, processTicker ticker_symbol (FetchOutcome.ok meta [] ts) =
      IndexEntry.err ticker_symbol "No data available") := by
  refine ⟨?_, get_index_values_lookup country_name entry fetch index_name
    ticker_symbol hc hi, fun e => rfl, fun meta ts => rfl⟩
  simp only [get_index_values, hc, StockResult.isErr]

/-- Witness for C4 on "uk": the FTSE 100 fetch raises while the
FTSE 250 fetch succeeds; the failing index gets a per-index error
entry and the other index still reports its values. -/
theorem get_index_values_per_ticker_isolation_witness :
    lookupA "FTSE 100"
      (get_index_values
        (fun s => if s = "^FTSE" then FetchOutcome.exn "boom"
                  else FetchOutcome.ok none [100] "d") "uk").indicesOf =
      some (IndexEntry.err "^FTSE" "Failed to fetch data: boom") ∧
    lookupA "FTSE 250"
      (get_index_values
        (fun s => if s = "^FTSE" then FetchOutcome.exn "boom"
                  else FetchOutcome.ok none [100] "d") "uk").indicesOf =
      some (IndexEntry.ok "^FTMC" 100 100 0 0 "d") := by
  constructor
  · have h := get_index_values_per_ticker_isolation "uk"
      ⟨["London Stock Exchange (LSE)"],
       [("FTSE 100", "^FTSE"), ("FTSE 250", "^FTMC")],
       "London Stock Exchange", "London, United Kingdom"⟩
      (fun s => if s = "^FTSE" then FetchOutcome.exn "boom"
                else FetchOutcome.ok none [100] "d")
      "FTSE 100" "^FTSE" (by decide) (by decide)
    rw [h.2.1]; decide
  · have h := get_index_values_per_ticker_isolation "uk"
      ⟨["London Stock Exchange (LSE)"],
       [("FTSE 100", "^FTSE"), ("FTSE 250", "^FTMC")],
       "London Stock Exchange", "London, United Kingdom"⟩
      (fun s => if s = "^FTSE" then FetchOutcome.exn "boom"
                else FetchOutcome.ok none [100] "d")
      "FTSE 250" "^FTMC" (by decide) (by decide)
    have hred : (if ("^FTMC" : String) = "^FTSE" then FetchOutcome.exn "boom"
        else FetchOutcome.ok none [100] "d") = FetchOutcome.ok none [100] "d" :=
      if_neg (by decide)
    rw [h.2.1]
    simp only [hred, processTicker_single_no_meta]
    have h100 : pyRound2 ((100 : ℚ)) = 100 := by
      have := pyRound2_intCast 100
      norm_num at this
      exact this
    rw [h100]

/-- Evaluation of the per-ticker body on the counterexample input for
the single-point-history claim: metadata previousClose 5 with a
one-entry history whose sole close is 10. -/
theorem processTicker_metadata_single_point_eval :
    processTicker "^FCHI" (FetchOutcome.ok (some 5) [10] "d") =
      IndexEntry.ok "^FCHI" 10 5 5 100 "d" := by
  have h10 : pyRound2 ((10 : ℚ)) = 10 := by
    have := pyRound2_intCast 10; norm_num at this; exact this
  have h5 : pyRound2 ((5 : ℚ)) = 5 := by
    have := pyRound2_intCast 5; norm_num at this; exact this
  have h100 : pyRound2 ((100 : ℚ)) = 100 := by
    have := pyRound2_intCast 100; norm_num at this; exact this
  unfold processTicker previousCloseVal
  norm_num [List.getLastD_cons, List.getLastD_nil, h10, h5, h100]

/-- Counterexample to C1 as stated: a fetched history with exactly one
entry (sole close 10) whose provider metadata carries previousClose 5
yields a CAC 40 entry with previous_close 5 ≠ current 10 and change
5 ≠ 0: with metadata present, a single-point history does not force
previous_close = current_price or change = 0. -/
theorem get_index_values_single_point_cex :
    lookupA "CAC 40"
      (get_index_values (fun _ => FetchOutcome.ok (some 5) [10] "d")
        "france").indicesOf =
      some (IndexEntry.ok "^FCHI" 10 5 5 100 "d") ∧
    IndexEntry.changeVal (IndexEntry.ok "^FCHI" (10 : ℚ) 5 5 100 "d") ≠ some 0 ∧
    (5 : ℚ) ≠ 10 := by
  refine ⟨?_, by simp [IndexEntry.changeVal], by norm_num⟩
  rw [get_index_values_lookup "france"
    ⟨["Euronext Paris"], [("CAC 40", "^FCHI")], "Euronext Paris", "Paris, France"⟩
    (fun _ => FetchOutcome.ok (some 5) [10] "d") "CAC 40" "^FCHI"
    (by decide) (by decide)]
  simp only [processTicker_metadata_single_point_eval]

/-- C1 (amended): for every ticker whose fetched historical close
series has exactly one entry and whose provider metadata has no
previousClose key, `get_index_values` records an entry whose
previous_close equals the sole close (the current price) and whose
change is exactly 0. -/
theorem get_index_values_single_point_no_metadata
    (country_name : String) (entry : ExchangeEntry)
    (fetch : String → FetchOutcome) (index_name ticker_symbol : String)
    (x : ℚ) (ts : String)
    (hc : lookupA (pyStrip (pyLower country_name)) stock_exchanges = some entry)
    (hi : (index_name, ticker_symbol) ∈ entry.indices)
    (hf : fetch ticker_symbol = FetchOutcome.ok none [x] ts) :
    lookupA index_name (get_index_values fetch country_name).indicesOf =
      some (IndexEntry.ok ticker_symbol (pyRound2 x) (pyRound2 x) 0 0 ts) := by
  rw [get_index_values_lookup country_name entry fetch index_name ticker_symbol
    hc hi, hf, processTicker_single_no_meta]

/-- Witness for C1's amended theorem on "france" with a single close
of 7 and no metadata. -/
theorem get_index_values_single_point_no_metadata_witness :
    lookupA "CAC 40"
      (get_index_values (fun _ => FetchOutcome.ok none [7] "d")
        "france").indicesOf =
      some (IndexEntry.ok "^FCHI" 7 7 0 0 "d") := by
  have h := get_index_values_single_point_no_metadata "france"
    ⟨["Euronext Paris"], [("CAC 40", "^FCHI")], "Euronext Paris", "Paris, France"⟩
    (fun _ => FetchOutcome.ok none [7] "d") "CAC 40" "^FCHI" 7 "d"
    (by decide) (by decide) rfl
  have h7 : pyRound2 ((7 : ℚ)) = 7 := by
    have := pyRound2_intCast 7; norm_num at this; exact this
  rw [h, h7]

/-- C3: whenever the computed previous_close is falsy (equal to 0),
the recorded change_percent is exactly 0 — the guarded conditional
takes its else branch, so the division by previous_close is never
evaluated. -/
theorem change_percent_zero_on_falsy_previous_close
    (ticker_symbol : String) (info_previousClose : Option ℚ)
    (closes : List ℚ) (last_updated : String)
    (hne : closes ≠ [])
    (h0 : previousCloseVal info_previousClose closes = 0) :
    IndexEntry.changePercent
      (processTicker ticker_symbol
        (FetchOutcome.ok info_previousClose closes last_updated)) = some 0 := by
  cases closes with
  | nil => exact absurd rfl hne
  | cons c t =>
    unfold processTicker
    simp only [List.isEmpty_cons, Bool.false_eq_true, if_false, h0]
    simp [IndexEntry.changePercent, pyRound2_zero]

/-- Witness for C3: metadata previousClose 0 with a one-entry
history. -/
theorem change_percent_zero_on_falsy_previous_close_witness :
    previousCloseVal (some 0) [5] = 0 ∧
    IndexEntry.changePercent
      (processTicker "^STI" (FetchOutcome.ok (some 0) [5] "d")) = some 0 := by
  constructor
  · rfl
  · exact change_percent_zero_on_falsy_previous_close "^STI" (some 0) [5] "d"
      (by simp) rfl

/-! ## Maps tools (`src/mcp/maps_tools.py`) -/

/-- One value of the static `exchange_locations` table. -/
structure LocationEntry where
  address : String
  lat : ℚ
  lng : ℚ
  query : String
  deriving DecidableEq

/-- The static `exchange_locations` table of `GoogleMapsMCPTool`. -/
def exchange_locations : List (String × LocationEntry) :=
  [("Tokyo Stock Exchange",
    ⟨"Tokyo Stock Exchange, 2-1 Nihonbashi-Kabutocho, Chuo City, Tokyo, Japan",
     35.6809, 139.7776, "Tokyo Stock Exchange"⟩),
   ("National Stock Exchange of India",
    ⟨"Exchange Plaza, Bandra Kurla Complex, Bandra East, Mumbai, Maharashtra 400051, India",
     19.0633, 72.8706, "National Stock Exchange of India, Mumbai"⟩),
   ("New York Stock Exchange",
    ⟨"11 Wall St, New York, NY 10005, United States",
     40.7074, -74.0113, "New York Stock Exchange"⟩),
   ("London Stock Exchange",
    ⟨"10 Paternoster Square, London EC4M 7LS, United Kingdom",
     51.5142, -0.0991, "London Stock Exchange"⟩),
   ("Korea Exchange",
    ⟨"76 Yeouinaru-ro, Yeongdeungpo-gu, Seoul, South Korea",
     37.5262, 126.9282, "Korea Exchange, Seoul"⟩),
   ("Shanghai Stock Exchange",
    ⟨"528 Pudong South Road, Pudong, Shanghai, China",
     31.2385, 121.5007, "Shanghai Stock Exchange"⟩),
   ("Frankfurt Stock Exchange",
    ⟨"Börsenplatz 4, 60313 Frankfurt am Main, Germany",
     50.1135, 8.6762, "Frankfurt Stock Exchange"⟩),
   ("Euronext Paris",
    ⟨"39 Rue Cambon, 75001 Paris, France",
     48.8675, 2.3265, "Euronext Paris"⟩),
   ("Toronto Stock Exchange",
    ⟨"The Exchange Tower, 130 King St W, Toronto, ON M5X 1J2, Canada",
     43.6478, -79.3813, "Toronto Stock Exchange"⟩),
   ("Australian Securities Exchange",
    ⟨"20 Bridge St, Sydney NSW 2000, Australia",
     -33.8646, 151.2101, "Australian Securities Exchange, Sydney"⟩),
   ("Hong Kong Stock Exchange",
    ⟨"8 Finance St, Central, Hong Kong",
     22.2845, 114.1580, "Hong Kong Stock Exchange"⟩),
   ("Singapore Exchange",
    ⟨"2 Shenton Way, Singapore 068804",
     1.2789, 103.8497, "Singapore Exchange"⟩),
   ("B3 - Brasil Bolsa Balcão",
    ⟨"Praça Antonio Prado, 48 - Centro Histórico de São Paulo, São Paulo, Brazil",
     -23.5449, -46.6342, "B3 Stock Exchange, São Paulo"⟩),
   ("SIX Swiss Exchange",
    ⟨"Pfingstweidstrasse 110, 8005 Zürich, Switzerland",
     47.3897, 8.5162, "SIX Swiss Exchange, Zurich"⟩),
   ("Bolsa de Madrid",
    ⟨"Plaza de la Lealtad, 1, 28014 Madrid, Spain",
     40.4169, -3.6943, "Bolsa de Madrid"⟩),
   ("Borsa Italiana",
    ⟨"Piazza Affari, 6, 20123 Milano MI, Italy",
     45.4654, 9.1859, "Borsa Italiana, Milan"⟩),
   ("Euronext Amsterdam",
    ⟨"Beursplein 5, 1012 JW Amsterdam, Netherlands",
     52.3736, 4.8936, "Euronext Amsterdam"⟩),
   ("Nasdaq Stockholm",
    ⟨"Tullvaktsvägen 15, 115 56 Stockholm, Sweden",
     59.3326, 18.0824, "Nasdaq Stockholm"⟩),
   ("Moscow Exchange",
    ⟨"13 Bolshoy Kislovsky Lane, Moscow, Russia",
     55.7595, 37.6028, "Moscow Exchange"⟩),
   ("Mexican Stock Exchange",
    ⟨"Paseo de la Reforma 255, Cuauhtémoc, Mexico City, Mexico",
     19.4284, -99.1677, "Mexican Stock Exchange, Mexico City"⟩),
   ("Stock Exchange of Thailand",
    ⟨"93 Ratchadaphisek Road, Din Daeng, Bangkok, Thailand",
     13.7649, 100.5630, "Stock Exchange of Thailand, Bangkok"⟩),
   ("Indonesia Stock Exchange",
    ⟨"Jl. Jend. Sudirman Kav 52-53, Jakarta 12190, Indonesia",
     -6.2258, 106.8086, "Indonesia Stock Exchange, Jakarta"⟩),
   ("Bursa Malaysia",
    ⟨"15 Jalan Semantan, Bukit Damansara, 50490 Kuala Lumpur, Malaysia",
     3.1520, 101.6695, "Bursa Malaysia, Kuala Lumpur"⟩)]

/-- Method `GoogleMapsMCPTool.get_embed_url`: empty string when no API
key is configured; place-mode URL from the stored query for known
exchanges; name-based fallback search URL otherwise. -/
def get_embed_url (api_key : Option String) (exchange_name : String) : String :=
  if !optTruthy api_key then ""
  else
    match lookupA exchange_name exchange_locations with
    | none =>
        let query := pyReplace exchange_name " " "+"
        "https://www.google.com/maps/embed/v1/place?key=" ++ api_key.getD "" ++
          "&q=" ++ query
    | some location =>
        let query := pyReplace location.query " " "+"
        "https://www.google.com/maps/embed/v1/place?key=" ++ api_key.getD "" ++
          "&q=" ++ query ++ "&zoom=15"

/-- Method `GoogleMapsMCPTool.get_map_html`: the placeholder paragraph
when the embed URL is empty, else the iframe markup. -/
def get_map_html (api_key : Option String) (exchange_name : String)
    (width height : ℤ) : String :=
  let embed_url := get_embed_url api_key exchange_name
  if embed_url = "" then "<p>Google Maps API key not configured</p>"
  else
    "\n        <iframe\n            width=\"" ++ toString width ++
      "\"\n            height=\"" ++ toString height ++
      "\"\n            style=\"border:0\"\n            loading=\"lazy\"\n" ++
      "            allowfullscreen\n" ++
      "            referrerpolicy=\"no-referrer-when-downgrade\"\n" ++
      "            src=\"" ++ embed_url ++ "\">\n        </iframe>\n        "

/-- Result of `GoogleMapsMCPTool.get_location_info`. -/
inductive LocationInfo
  | err (exchange msg map_url : String)
  | ok (exchange address : String) (lat lng : ℚ) (map_url map_html : String)
  deriving DecidableEq

/-- Method `GoogleMapsMCPTool.get_location_info`. -/
def get_location_info (api_key : Option String) (exchange_name : String) :
    LocationInfo :=
  match lookupA exchange_name exchange_locations with
  | none =>
      .err exchange_name "Location information not available"
        (get_embed_url api_key exchange_name)
  | some location =>
      .ok exchange_name location.address location.lat location.lng
        (get_embed_url api_key exchange_name)
        (get_map_html api_key exchange_name 600 450)

/-- C8: with no maps API key configured (the configured value is falsy:
absent or empty), `get_embed_url` returns exactly the empty string and
`get_map_html` returns the placeholder notice, for every exchange name
and iframe size; both embedded functions are total, mirroring that the
source performs no raising operation on this path. -/
theorem maps_disabled_without_api_key (api_key : Option String)
    (exchange_name : String) (width height : ℤ)
    (h : optTruthy api_key = false) :
    get_embed_url api_key exchange_name = "" ∧
    get_map_html api_key exchange_name width height =
      "<p>Google Maps API key not configured</p>" := by
  have he : get_embed_url api_key exchange_name = "" := by
    unfold get_embed_url
    simp [h]
  refine ⟨he, ?_⟩
  unfold get_map_html
  simp [he]

/-- Witness for C8 at an unset key and the Tokyo Stock Exchange. -/
theorem maps_disabled_without_api_key_witness :
    get_embed_url none "Tokyo Stock Exchange" = "" ∧
    get_map_html none "Tokyo Stock Exchange" 600 450 =
      "<p>Google Maps API key not configured</p>" :=
  maps_disabled_without_api_key none "Tokyo Stock Exchange" 600 450 rfl

/-! ## MCP server (`src/mcp/server.py`) -/

/-- A value returned by `MCPFinancialServer.execute_tool`: the
formatted string of a currency/stock tool, the dict of the location
tool, or the unknown-tool error dict. -/
inductive ToolResult (γ : Type)
  | str (s : String)
  | dict (d : γ)
  | errDict (msg : String)
  deriving DecidableEq

/-- Python `parameters.get(key, "")`. -/
def getParam (parameters : List (String × String)) (k : String) : String :=
  (lookupA k parameters).getD ""

/-- Method `MCPFinancialServer.execute_tool`: dictionary dispatch over
the three registered tool names, with the imported tool functions as
parameters of the dispatch layer. -/
def execute_tool {γ : Type}
    (currencyInfoFn stockMarketInfoFn : String → String)
    (exchangeLocationFn : String → γ)
    (tool_name : String) (parameters : List (String × String)) : ToolResult γ :=
  if tool_name = "get_currency_info" then
    .str (currencyInfoFn (getParam parameters "country_name"))
  else if tool_name = "get_stock_market_info" then
    .str (stockMarketInfoFn (getParam parameters "country_name"))
  else if tool_name = "get_exchange_location" then
    .dict (exchangeLocationFn (getParam parameters "exchange_name"))
  else
    .errDict ("Unknown tool: " ++ tool_name)

/-- C10: `execute_tool` returns the structured unknown-tool error dict
for every tool name other than the three registered ones, and for the
registered names a missing named parameter is replaced by the empty
string at the dispatch layer; the dispatch is a total function, never
an exception. -/
theorem execute_tool_dispatch {γ : Type}
    (currencyInfoFn stockMarketInfoFn : String → String)
    (exchangeLocationFn : String → γ)
    (tool_name : String) (parameters : List (String × String)) :
    (tool_name ≠ "get_currency_info" → tool_name ≠ "get_stock_market_info" →
      tool_name ≠ "get_exchange_location" →
      execute_tool currencyInfoFn stockMarketInfoFn exchangeLocationFn
        tool_name parameters = .errDict ("Unknown tool: " ++ tool_name)) ∧
    (lookupA "country_name" parameters = none →
      execute_tool currencyInfoFn stockMarketInfoFn exchangeLocationFn
        "get_currency_info" parameters = .str (currencyInfoFn "")) ∧
    (lookupA "country_name" parameters = none →
      execute_tool currencyInfoFn stockMarketInfoFn exchangeLocationFn
        "get_stock_market_info" parameters = .str (stockMarketInfoFn "")) ∧
    (lookupA "exchange_name" parameters = none →
      execute_tool currencyInfoFn stockMarketInfoFn exchangeLocationFn
        "get_exchange_location" parameters = .dict (exchangeLocationFn "")) := by
  refine ⟨?_, ?_, ?_, ?_⟩
  · intro h1 h2 h3
    simp [execute_tool, h1, h2, h3]
  · intro h
    simp [execute_tool, getParam, h]
  · intro h
    simp [execute_tool, getParam, h]
  · intro h
    simp [execute_tool, getParam, h]

/-- Witness for C10: an unregistered tool name and a registered one
with an empty parameter dict. -/
theorem execute_tool_dispatch_witness :
    execute_tool id id (fun s => s ++ "!") "bogus" [] =
      ToolResult.errDict "Unknown tool: bogus" ∧
    execute_tool id id (fun s => s ++ "!") "get_currency_info" [] =
      ToolResult.str "" := by
  have h := execute_tool_dispatch id id (fun s => s ++ "!") "bogus"
    ([] : List (String × String))
  have h2 := execute_tool_dispatch id id (fun s => s ++ "!") "get_currency_info"
    ([] : List (String × String))
  constructor
  · rw [h.1 (by decide) (by decide) (by decide)]; decide
  · exact h2.2.1 rfl

/-! ## Agent aggregation (`src/agent/agent.py`) -/

/-- A value stored under `location_info` in the results dict: the
location payload or the per-step error dict built in the handler. -/
inductive LocOutcome (γ : Type)
  | ok (l : γ)
  | err (msg : String)
  deriving DecidableEq

/-- The `results` dict accumulated by `FinancialAgent._call_tools`;
a key not yet assigned is `none`. -/
structure AggResults (γ : Type) where
  currency_info : Option String
  stock_info : Option String
  primary_exchange : Option String
  location_info : Option (LocOutcome γ)
  deriving DecidableEq

/-- One record appended to `self.intermediate_steps`. -/
inductive StepRecord
  | output (tool input out : String)
  | error (tool input errMsg : String)
  deriving DecidableEq

/-- Step 1 of `_call_tools`: the individually wrapped
`get_currency_info` call.  The oracle's `error` value stands for an
exception raised by the call. -/
def callToolsStep1 {γ : Type} (currency_tool : String → Except String String)
    (country : String) : AggResults γ × List StepRecord :=
  match currency_tool country with
  | .ok currency_result =>
      (⟨some currency_result, none, none, none⟩,
       [.output "get_currency_info" country (truncate200 currency_result)])
  | .error e =>
      (⟨some ("Error fetching currency info: " ++ e), none, none, none⟩,
       [.error "get_currency_info" country e])

/-- The primary-exchange extraction inside step 2 of `_call_tools`:
the first report line containing "Primary Exchange:", with the bold
marker removed and whitespace stripped. -/
def extractPrimaryExchange (stock_result : String) : Option String :=
  if containsSub stock_result "Primary Exchange:" then
    match (pySplit stock_result "\n").find?
        (fun line => containsSub line "Primary Exchange:") with
    | some line => some (pyStrip (pyReplace line "**Primary Exchange:**" ""))
    | none => none
  else none

/-- Step 2 of `_call_tools`: the individually wrapped
`get_stock_market_info` call plus primary-exchange extraction. -/
def callToolsStep2 {γ : Type} (stock_tool : String → Except String String)
    (country : String) (st : AggResults γ × List StepRecord) :
    AggResults γ × List StepRecord :=
  match stock_tool country with
  | .ok stock_result =>
      ({ st.1 with
          stock_info := some stock_result
          primary_exchange := extractPrimaryExchange stock_result },
       st.2 ++ [.output "get_stock_market_info" country
         (truncate200 stock_result)])
  | .error e =>
      ({ st.1 with stock_info := some ("Error fetching stock info: " ++ e) },
       st.2 ++ [.error "get_stock_market_info" country e])

/-- Step 3 of `_call_tools`: the individually wrapped
`get_exchange_location` call, run only when a primary exchange was
recorded and the maps key is truthy. -/
def callToolsStep3 {γ : Type} (strFn : γ → String)
    (location_tool : String → Except String γ) (maps_key : Option String)
    (st : AggResults γ × List StepRecord) : AggResults γ × List StepRecord :=
  match st.1.primary_exchange with
  | some pe =>
      if optTruthy maps_key then
        match location_tool pe with
        | .ok location_result =>
            ({ st.1 with location_info := some (.ok location_result) },
             st.2 ++ [.output "get_exchange_location" pe (strFn location_result)])
        | .error e =>
            ({ st.1 with location_info := some (.err e) },
             st.2 ++ [.error "get_exchange_location" pe e])
      else st
  | none => st

/-- Method `FinancialAgent._call_tools`: the three wrapped tool calls
in sequence, building the results dict and the intermediate-step
trace.  The payload type of the location tool is abstract, with
`strFn` standing for Python's `str` applied to it in the trace. -/
def call_tools {γ : Type} (strFn : γ → String)
    (currency_tool stock_tool : String → Except String String)
    (location_tool : String → Except String γ) (maps_key : Option String)
    (country : String) : AggResults γ × List StepRecord :=
  callToolsStep3 strFn location_tool maps_key
    (callToolsStep2 stock_tool country (callToolsStep1 currency_tool country))

/-- Step 3 only ever touches the `location_info` key and appends to
the trace. -/
theorem callToolsStep3_preserves {γ : Type} (strFn : γ → String)
    (location_tool : String → Except String γ) (maps_key : Option String)
    (st : AggResults γ × List StepRecord) :
    (callToolsStep3 strFn location_tool maps_key st).1.currency_info =
      st.1.currency_info ∧
    (callToolsStep3 strFn location_tool maps_key st).1.stock_info =
      st.1.stock_info ∧
    (callToolsStep3 strFn location_tool maps_key st).1.primary_exchange =
      st.1.primary_exchange := by
  unfold callToolsStep3
  cases hpe : st.1.primary_exchange with
  | none => simp [hpe]
  | some pe =>
    by_cases hk : optTruthy maps_key
    · simp only [hk, if_true]
      cases location_tool pe <;> simp [hpe]
    · simp [hk, hpe]

/-- The `location_info` key written by step 3, as a function of the
incoming primary exchange, the maps key, and the location oracle. -/
theorem callToolsStep3_location {γ : Type} (strFn : γ → String)
    (location_tool : String → Except String γ) (maps_key : Option String)
    (st : AggResults γ × List StepRecord) :
    (callToolsStep3 strFn location_tool maps_key st).1.location_info =
      (match st.1.primary_exchange with
       | some pe =>
           if optTruthy maps_key then
             (match location_tool pe with
              | .ok l => some (LocOutcome.ok l)
              | .error e => some (LocOutcome.err e))
           else st.1.location_info
       | none => st.1.location_info) := by
  unfold callToolsStep3
  cases hpe : st.1.primary_exchange with
  | none => simp [hpe]
  | some pe =>
    by_cases hk : optTruthy maps_key
    · simp only [hk, if_true]
      cases location_tool pe <;> simp [hpe]
    · simp [hk, hpe]

/-- The keys written by step 2 depend only on the stock oracle; the
other keys pass through. -/
theorem callToolsStep2_fields {γ : Type}
    (stock_tool : String → Except String String) (country : String)
    (st : AggResults γ × List StepRecord) :
    (callToolsStep2 stock_tool country st).1.currency_info =
      st.1.currency_info ∧
    (callToolsStep2 stock_tool country st).1.location_info =
      st.1.location_info ∧
    (callToolsStep2 stock_tool country st).1.stock_info =
      (match stock_tool country with
       | .ok s => some s
       | .error e => some ("Error fetching stock info: " ++ e)) ∧
    (callToolsStep2 stock_tool country st).1.primary_exchange =
      (match stock_tool country with
       | .ok s => extractPrimaryExchange s
       | .error _ => st.1.primary_exchange) := by
  unfold callToolsStep2
  cases stock_tool country <;> simp

/-- The keys written by step 1 depend only on the currency oracle. -/
theorem callToolsStep1_fields {γ : Type}
    (currency_tool : String → Except String String) (country : String) :
    ((callToolsStep1 currency_tool country :
        AggResults γ × List StepRecord)).1.currency_info =
      (match currency_tool country with
       | .ok s => some s
       | .error e => some ("Error fetching currency info: " ++ e)) ∧
    ((callToolsStep1 currency_tool country :
        AggResults γ × List StepRecord)).1.stock_info = none ∧
    ((callToolsStep1 currency_tool country :
        AggResults γ × List StepRecord)).1.primary_exchange = none ∧
    ((callToolsStep1 currency_tool country :
        AggResults γ × List StepRecord)).1.location_info = none := by
  unfold callToolsStep1
  cases currency_tool country <;> simp

/-- Step 2 only appends to the trace. -/
theorem callToolsStep2_trace {γ : Type}
    (stock_tool : String → Except String String) (country : String)
    (st : AggResults γ × List StepRecord) :
    ∃ l, (callToolsStep2 stock_tool country st).2 = st.2 ++ l := by
  unfold callToolsStep2
  cases stock_tool country <;> exact ⟨_, rfl⟩

/-- Step 3 only appends to the trace. -/
theorem callToolsStep3_trace {γ : Type} (strFn : γ → String)
    (location_tool : String → Except String γ) (maps_key : Option String)
    (st : AggResults γ × List StepRecord) :
    ∃ l, (callToolsStep3 strFn location_tool maps_key st).2 = st.2 ++ l := by
  unfold callToolsStep3
  cases st.1.primary_exchange with
  | none => exact ⟨[], by simp⟩
  | some pe =>
    by_cases hk : optTruthy maps_key
    · simp only [hk, if_true]
      cases location_tool pe <;> exact ⟨_, rfl⟩
    · simp only [hk, Bool.false_eq_true, if_false]
      exact ⟨[], by simp⟩

/-- C5: every step of the aggregator's tool-calling sequence is
wrapped individually.  An exception in a step (an `error` outcome of
that step's oracle) is recorded as an error for that step only — in
the results dict and at that step's slot of the ordered trace — the
remaining steps still run and their outcomes are independent of the
other steps' oracles, and `call_tools` is a total function, so no
exception from a tool call propagates to its caller. -/
theorem call_tools_step_isolation {γ : Type} (strFn : γ → String)
    (co co' so so' : String → Except String String)
    (lo lo' : String → Except String γ) (maps_key : Option String)
    (country : String) :
    ((call_tools strFn co so lo maps_key country).1.currency_info.isSome ∧
     (call_tools strFn co so lo maps_key country).1.stock_info.isSome) ∧
    (∀ e, co country = .error e →
      (call_tools strFn co so lo maps_key country).1.currency_info =
        some ("Error fetching currency info: " ++ e) ∧
      (call_tools strFn co so lo maps_key country).2.head? =
        some (StepRecord.error "get_currency_info" country e)) ∧
    (∀ e, so country = .error e →
      (call_tools strFn co so lo maps_key country).1.stock_info =
        some ("Error fetching stock info: " ++ e)) ∧
    (∀ e pe,
      (call_tools strFn co so lo maps_key country).1.primary_exchange = some pe →
      optTruthy maps_key = true → lo pe = .error e →
      (call_tools strFn co so lo maps_key country).1.location_info =
        some (LocOutcome.err e)) ∧
    ((call_tools strFn co so lo maps_key country).1.stock_info =
      (call_tools strFn co' so lo maps_key country).1.stock_info ∧
     (call_tools strFn co so lo maps_key country).1.primary_exchange =
      (call_tools strFn co' so lo maps_key country).1.primary_exchange ∧
     (call_tools strFn co so lo maps_key country).1.location_info =
      (call_tools strFn co' so lo maps_key country).1.location_info) ∧
    ((call_tools strFn co so lo maps_key country).1.currency_info =
      (call_tools strFn co so' lo' maps_key country).1.currency_info) ∧
    ((call_tools strFn co so lo maps_key country).1.stock_info =
      (call_tools strFn co so lo' maps_key country).1.stock_info) := by
  have hA3 := callToolsStep3_preserves strFn lo maps_key
    (callToolsStep2 so country (callToolsStep1 co country))
  have hA2 := callToolsStep2_fields so country
    (callToolsStep1 co country : AggResults γ × List StepRecord)
  have hA1 := callToolsStep1_fields (γ := γ) co country
  have hB3 := callToolsStep3_preserves strFn lo maps_key
    (callToolsStep2 so country (callToolsStep1 co' country))
  have hB2 := callToolsStep2_fields so country
    (callToolsStep1 co' country : AggResults γ × List StepRecord)
  have hB1 := callToolsStep1_fields (γ := γ) co' country
  have hC3 := callToolsStep3_preserves strFn lo' maps_key
    (callToolsStep2 so' country (callToolsStep1 co country))
  have hC2 := callToolsStep2_fields so' country
    (callToolsStep1 co country : AggResults γ × List StepRecord)
  have hD3 := callToolsStep3_preserves strFn lo' maps_key
    (callToolsStep2 so country (callToolsStep1 co country))
  refine ⟨⟨?_, ?_⟩, ?_, ?_, ?_, ⟨?_, ?_, ?_⟩, ?_, ?_⟩
  · simp only [call_tools, hA3.1, hA2.1, hA1.1]
    cases hco : co country <;> simp
  · simp only [call_tools, hA3.2.1, hA2.2.2.1]
    cases hso : so country <;> simp
  · intro e hco
    constructor
    · simp only [call_tools, hA3.1, hA2.1, hA1.1, hco]
    · obtain ⟨l2, h2⟩ := callToolsStep2_trace so country
        (callToolsStep1 co country : AggResults γ × List StepRecord)
      obtain ⟨l3, h3⟩ := callToolsStep3_trace strFn lo maps_key
        (callToolsStep2 so country (callToolsStep1 co country))
      simp only [call_tools, h3, h2]
      unfold callToolsStep1
      simp [hco]
  · intro e hso
    simp only [call_tools, hA3.2.1, hA2.2.2.1, hso]
  · intro e pe hpe hk hlo
    rw [call_tools] at hpe ⊢
    rw [hA3.2.2] at hpe
    rw [callToolsStep3_location, hpe, hk]
    simp [hlo]
  · simp only [call_tools, hA3.2.1, hA2.2.2.1, hB3.2.1, hB2.2.2.1]
  · simp only [call_tools, hA3.2.2, hA2.2.2.2, hB3.2.2, hB2.2.2.2,
      hA1.2.2.1, hB1.2.2.1]
  · simp only [call_tools]
    rw [callToolsStep3_location, callToolsStep3_location]
    rw [hA2.2.2.2, hB2.2.2.2, hA1.2.2.1, hB1.2.2.1, hA2.2.1, hB2.2.1,
      hA1.2.2.2, hB1.2.2.2]
  · simp only [call_tools, hA3.1, hA2.1, hA1.1, hC3.1, hC2.1]
  · simp only [call_tools, hA3.2.1, hA2.2.2.1, hD3.2.1]

/-- Witness for C5: the currency and location calls raise while the
stock call succeeds and resolves a primary exchange; each failure is
recorded in its own slot and the stock step still completes. -/
theorem call_tools_step_isolation_witness :
    (call_tools id (fun _ => Except.error "cboom")
      (fun _ => Except.ok "**Primary Exchange:** NYSE")
      (fun _ => Except.error "lboom") (some "K") "usa").1.currency_info =
      some "Error fetching currency info: cboom" ∧
    (call_tools id (fun _ => Except.error "cboom")
      (fun _ => Except.ok "**Primary Exchange:** NYSE")
      (fun _ => Except.error "lboom") (some "K") "usa").2.head? =
      some (StepRecord.error "get_currency_info" "usa" "cboom") ∧
    (call_tools id (fun _ => Except.error "cboom")
      (fun _ => Except.ok "**Primary Exchange:** NYSE")
      (fun _ => Except.error "lboom") (some "K") "usa").1.stock_info =
      some "**Primary Exchange:** NYSE" ∧
    (call_tools id (fun _ => Except.error "cboom")
      (fun _ => Except.ok "**Primary Exchange:** NYSE")
      (fun _ => Except.error "lboom") (some "K") "usa").1.location_info =
      some (LocOutcome.err "lboom") := by
  have h := call_tools_step_isolation (γ := String) id
    (fun _ => Except.error "cboom") (fun _ => Except.error "cboom")
    (fun _ => Except.ok "**Primary Exchange:** NYSE")
    (fun _ => Except.ok "**Primary Exchange:** NYSE")
    (fun _ => Except.error "lboom") (fun _ => Except.error "lboom")
    (some "K") "usa"
  have hcur := h.2.1 "cboom" rfl
  refine ⟨hcur.1, hcur.2, ?_, ?_⟩
  · decide
  · exact h.2.2.2.1 "lboom" "NYSE" (by decide) rfl rfl
